import Mathlib

/-!
Shallow embedding of the conftalk (TalkPrep AI) repository and proofs about
its specification claims.

Sources embedded:
- src/src/types/index.ts          (data model)
- src/src/templates/index.ts      (template table, outline-from-template,
                                   TalkPrepSkill workflow coordinator)
- src/src/modules/rehearsal.ts    (Q&A preparation, rehearsal sessions)
- src/unnamed/part_000            (content module: script template, content
                                   validation)
- src/unnamed/part_001            (ideation, outline and slides modules:
                                   discovery questions, topic refinements,
                                   outline timing validation, slide deck
                                   validation, export to markdown/json/html)

Modelling conventions:
- JavaScript numbers that are only ever integer-valued in the embedded code
  paths are modelled as Nat (durations derived from validated configuration)
  or Int (durations of caller-supplied artifacts).
- Math.round on a non-negative ratio num/den is floor(num/den + 1/2), i.e.
  (2*num + den) / (2*den) in natural division (jsRound below).
- Math.ceil on a non-negative ratio is the usual ceiling division.
- Comparisons against the JS float literals 0.3, 0.5, 0.8, 1.2, 1.5 are
  modelled as exact rational comparisons by cross-multiplication.  The
  binary-float approximations of 0.3, 0.8 and 1.2 differ from the exact
  rationals by about 1e-16; in this repository those comparisons only feed
  advisory warning/suggestion lists, never a workflow gate, and no claim
  below depends on the difference.
- Date.now() / new Date() are modelled by passing the current timestamp as
  an explicit argument where an embedded function uses the clock.
- Thrown exceptions are modelled with Except String; the string is the
  Error message of the source.
-/

namespace ConfTalk

/-- List map that also passes the element's position, with an explicit
starting index; mirrors the `(x, index) => ...` callbacks of Array.map in
the source and the incrementing id counters. -/
def mapIdxFrom (f : Nat → α → β) : Nat → List α → List β
  | _, [] => []
  | n, a :: as => f n a :: mapIdxFrom f (n + 1) as

/-- JavaScript Math.round of the non-negative ratio num/den:
floor(num/den + 1/2). -/
def jsRound (num den : Nat) : Nat := (2 * num + den) / (2 * den)

/-- JavaScript Math.ceil of the non-negative ratio num/den. -/
def jsCeilDiv (num den : Nat) : Nat := (num + den - 1) / den


-- ===========================================================================
-- Data model (src/src/types/index.ts)
-- ===========================================================================

inductive AudienceType
  | technical | academic | business | general
deriving DecidableEq

inductive ExpertiseLevel
  | beginner | intermediate | expert
deriving DecidableEq

inductive TalkType
  | keynote | technical_deep_dive | workshop | lightning_talk | panel_discussion
deriving DecidableEq

inductive ToneType
  | formal | conversational | inspirational | educational
deriving DecidableEq

/-- ExportFormat from the types module ('markdown' | 'json' | 'html' | 'pdf'). -/
inductive ExportFormat
  | markdown | json | html | pdf
deriving DecidableEq

structure TalkConfig where
  topic : String
  audience : AudienceType
  duration : Nat
  expertiseLevel : ExpertiseLevel
  talkType : TalkType
  tone : ToneType
  speakerName : Option String := none
  conferenceContext : Option String := none
  additionalNotes : Option String := none
deriving DecidableEq

structure ResearchSource where
  title : String
  url : Option String := none
  author : Option String := none
  date : Option String := none
  relevance : String
  summary : String
  keyPoints : List String
deriving DecidableEq

structure ResearchResult where
  refinedTopic : String
  topicSuggestions : List String
  keyConcepts : List String
  sources : List ResearchSource
  potentialBiases : List String
  audienceConsiderations : List String
deriving DecidableEq

/-- Section type enum of OutlineSection. -/
inductive SectionType
  | intro | main | conclusion | qa | transition
deriving DecidableEq

structure OutlineSubsection where
  id : String
  title : String
  keyPoints : List String
  suggestedVisuals : Option (List String) := none
deriving DecidableEq

structure OutlineSection where
  id : String
  title : String
  duration : Int
  order : Nat
  type : SectionType
  keyPoints : List String
  subsections : Option (List OutlineSubsection) := none
  notes : Option String := none
deriving DecidableEq

structure TalkOutline where
  title : String
  subtitle : Option String := none
  totalDuration : Int
  sections : List OutlineSection
  learningObjectives : List String
  callToAction : Option String := none
deriving DecidableEq

structure CodeExample where
  language : String
  code : String
  explanation : String
  highlightLines : Option (List Nat) := none
deriving DecidableEq

structure SpeakerNote where
  sectionId : String
  content : String
  timing : String
  emphasis : Option (List String) := none
  pausePoints : Option (List String) := none
deriving DecidableEq

structure Transitions where
  tIn : Option String := none
  tOut : Option String := none
deriving DecidableEq

structure ScriptSection where
  sectionId : String
  title : String
  content : String
  transitions : Transitions
  codeExamples : Option (List CodeExample) := none
  anecdotes : Option (List String) := none
deriving DecidableEq

structure Script where
  title : String
  introduction : String
  sections : List ScriptSection
  conclusion : String
  speakerNotes : List SpeakerNote
deriving DecidableEq

inductive SlideLayout
  | title | section_header | content | two_column | image_full | code
  | quote | bullet_points | comparison | timeline | qa
deriving DecidableEq

structure Quote where
  text : String
  attribution : Option String := none
deriving DecidableEq

structure Slide where
  id : String
  order : Nat
  layout : SlideLayout
  title : Option String := none
  subtitle : Option String := none
  content : Option String := none
  bulletPoints : Option (List String) := none
  imagePrompt : Option String := none
  code : Option CodeExample := none
  quote : Option Quote := none
  speakerNotes : String
  duration : Int
deriving DecidableEq

/-- Theme type enum of SlideTheme. -/
inductive ThemeType
  | tech | business | academic | minimal | creative
deriving DecidableEq

structure SlideTheme where
  name : String
  type : ThemeType
  primaryColor : Option String := none
  secondaryColor : Option String := none
  fontFamily : Option String := none
deriving DecidableEq

structure SlideMetadata where
  totalSlides : Nat
  estimatedDuration : Int
  generatedAt : String
  version : String
deriving DecidableEq

structure SlideDeck where
  title : String
  author : Option String := none
  date : Option String := none
  theme : SlideTheme
  slides : List Slide
  metadata : SlideMetadata
deriving DecidableEq

inductive QACategory
  | technical | clarification | challenge | expansion | practical
deriving DecidableEq

inductive QADifficulty
  | easy | medium | hard
deriving DecidableEq

structure QAPair where
  id : String
  question : String
  category : QACategory
  difficulty : QADifficulty
  suggestedAnswer : String
  followUpQuestions : Option (List String) := none
  pitfalls : Option (List String) := none
deriving DecidableEq

/-- QAPair before its sequential id is assigned (the `Omit<QAPair, 'id'>`
records of the rehearsal module). -/
structure QAPairNoId where
  question : String
  category : QACategory
  difficulty : QADifficulty
  suggestedAnswer : String
  followUpQuestions : Option (List String) := none
  pitfalls : Option (List String) := none
deriving DecidableEq

def QAPairNoId.withId (q : QAPairNoId) (i : String) : QAPair :=
  { id := i
    question := q.question
    category := q.category
    difficulty := q.difficulty
    suggestedAnswer := q.suggestedAnswer
    followUpQuestions := q.followUpQuestions
    pitfalls := q.pitfalls }

structure QAPreparation where
  anticipatedQuestions : List QAPair
  challengingTopics : List String
  preparedResponses : List (String × String)
  redirectStrategies : List String
deriving DecidableEq

inductive TimingStatus
  | not_started | in_progress | completed
deriving DecidableEq

structure RehearsalSectionTiming where
  sectionId : String
  targetDuration : Int
  actualDuration : Option Int := none
  status : TimingStatus
deriving DecidableEq

inductive SectionTimingVerdict
  | on_track | too_fast | too_slow
deriving DecidableEq

structure SectionFeedback where
  sectionId : String
  timingStatus : SectionTimingVerdict
  suggestions : List String
deriving DecidableEq

structure OverallTiming where
  target : Int
  actual : Int
  variance : Int
deriving DecidableEq

structure RehearsalFeedback where
  overallTiming : OverallTiming
  sectionFeedback : List SectionFeedback
  suggestions : List String
  strengthAreas : List String
  improvementAreas : List String
deriving DecidableEq

structure RehearsalSession where
  id : String
  startTime : Nat
  endTime : Option Nat := none
  sections : List RehearsalSectionTiming
  feedback : RehearsalFeedback
deriving DecidableEq

/-- WorkflowStep enum; the source value 'export' is spelled exportStep here
because export is a Lean keyword. -/
inductive WorkflowStep
  | ideation | outline | content | exportStep | rehearsal
deriving DecidableEq

/-- Position of a step in the linear order
ideation -> outline -> content -> export -> rehearsal. -/
def WorkflowStep.idx : WorkflowStep → Nat
  | .ideation => 0
  | .outline => 1
  | .content => 2
  | .exportStep => 3
  | .rehearsal => 4

structure WorkflowState where
  currentStep : WorkflowStep
  completedSteps : List WorkflowStep
  config : TalkConfig
  research : Option ResearchResult := none
  outline : Option TalkOutline := none
  script : Option Script := none
  slides : Option SlideDeck := none
  qaPrep : Option QAPreparation := none
  rehearsals : List RehearsalSession
deriving DecidableEq

structure ExportOptions where
  format : ExportFormat
  includeNotes : Bool
  includeTimings : Bool
  theme : Option SlideTheme := none
deriving DecidableEq

structure ExportResult where
  format : ExportFormat
  content : String
  filename : String
  mimeType : String
deriving DecidableEq

-- ===========================================================================
-- Template table (src/src/templates/index.ts)
-- ===========================================================================

structure TemplateSection where
  title : String
  type : SectionType
  durationPercent : Nat
  keyPointPrompts : List String
  notes : String
deriving DecidableEq

structure TalkTemplate where
  name : String
  description : String
  defaultDuration : Nat
  struct : List TemplateSection
  tips : List String
  exampleHooks : List String
  recommendedTheme : SlideTheme
deriving DecidableEq

def keynoteTemplate : TalkTemplate :=
  { name := "Keynote"
    description := "Inspirational, visionary talk that sets the tone for an event"
    defaultDuration := 45
    struct := [
      { title := "Opening Hook"
        type := .intro
        durationPercent := 10
        keyPointPrompts := [
          "Start with a story, question, or surprising fact",
          "Establish your credibility briefly",
          "Preview the journey you\x27ll take them on"]
        notes := "Make it personal. Connect emotionally. Create anticipation." },
      { title := "The Problem / Opportunity"
        type := .main
        durationPercent := 15
        keyPointPrompts := [
          "Describe the current state of the industry/world",
          "Identify the challenge or opportunity",
          "Make the audience feel the urgency"]
        notes := "Paint a vivid picture. Use data to support your claims." },
      { title := "The Vision"
        type := .main
        durationPercent := 25
        keyPointPrompts := [
          "Describe what\x27s possible",
          "Share examples of early success",
          "Connect vision to audience\x27s aspirations"]
        notes := "Be bold but credible. Inspire action." },
      { title := "The Path Forward"
        type := .main
        durationPercent := 20
        keyPointPrompts := [
          "Outline concrete steps",
          "Address potential obstacles",
          "Share resources and support available"]
        notes := "Make it actionable. Don\x27t just inspire - enable." },
      { title := "Call to Action"
        type := .conclusion
        durationPercent := 10
        keyPointPrompts := [
          "Summarize the key message",
          "Issue a clear call to action",
          "End with a memorable statement"]
        notes := "Circle back to your opening. Leave them energized." },
      { title := "Q&A"
        type := .qa
        durationPercent := 20
        keyPointPrompts := [
          "Prepare for skeptical questions",
          "Have examples ready",
          "Bridge answers to key messages"]
        notes := "Stay composed. Every question is an opportunity." }]
    tips := [
      "Practice your opening until it\x27s flawless",
      "Use personal stories to make abstract ideas concrete",
      "Vary your pace and volume for emphasis",
      "Make eye contact across different sections of the room",
      "End on time - respect your audience"]
    exampleHooks := [
      "Start with a bold prediction about the future",
      "Share a personal failure that led to an insight",
      "Ask a provocative question that challenges assumptions",
      "Present a striking statistic that reframes the conversation"]
    recommendedTheme :=
      { name := "Keynote Bold"
        type := .creative
        primaryColor := some "#0f172a"
        secondaryColor := some "#3b82f6"
        fontFamily := some "Inter, sans-serif" } }

def technicalDeepDiveTemplate : TalkTemplate :=
  { name := "Technical Deep Dive"
    description := "Detailed exploration of a technical topic for expert audiences"
    defaultDuration := 45
    struct := [
      { title := "Problem Context"
        type := .intro
        durationPercent := 10
        keyPointPrompts := [
          "Define the technical problem clearly",
          "Explain why existing solutions fall short",
          "Preview your approach"]
        notes := "Establish technical context quickly. Your audience knows the basics." },
      { title := "Background & Prior Art"
        type := .main
        durationPercent := 15
        keyPointPrompts := [
          "Review relevant prior work",
          "Explain key concepts needed",
          "Acknowledge trade-offs of existing approaches"]
        notes := "Be fair to alternatives. Show you\x27ve done your homework." },
      { title := "Solution Architecture"
        type := .main
        durationPercent := 25
        keyPointPrompts := [
          "Present your approach at a high level",
          "Explain key design decisions",
          "Discuss trade-offs you made"]
        notes := "Use diagrams. Explain the \"why\" not just the \"what\"." },
      { title := "Implementation Details"
        type := .main
        durationPercent := 20
        keyPointPrompts := [
          "Show key code or configurations",
          "Highlight interesting challenges",
          "Demonstrate with working examples"]
        notes := "Don\x27t show every line. Focus on insights." },
      { title := "Results & Lessons"
        type := .conclusion
        durationPercent := 10
        keyPointPrompts := [
          "Share benchmarks or outcomes",
          "Discuss what you learned",
          "Suggest next steps or future work"]
        notes := "Be honest about limitations. Share real numbers." },
      { title := "Q&A"
        type := .qa
        durationPercent := 20
        keyPointPrompts := [
          "Prepare for edge case questions",
          "Know your performance numbers",
          "Be ready to discuss alternatives"]
        notes := "It\x27s OK to say \"I don\x27t know, let me check.\"" }]
    tips := [
      "Test all demos before the talk",
      "Have backup slides if live coding fails",
      "Explain your reasoning, not just your solution",
      "Be prepared for \"what about X?\" questions",
      "Leave code examples accessible for later"]
    exampleHooks := [
      "Show the end result first, then explain how you got there",
      "Share a war story of a production incident",
      "Present a performance comparison that surprised you",
      "Demonstrate a common mistake and its consequences"]
    recommendedTheme :=
      { name := "Tech Modern"
        type := .tech
        primaryColor := some "#2563eb"
        secondaryColor := some "#1e40af"
        fontFamily := some "JetBrains Mono, monospace" } }

def workshopTemplate : TalkTemplate :=
  { name := "Workshop"
    description := "Hands-on, interactive learning session"
    defaultDuration := 90
    struct := [
      { title := "Introduction & Setup"
        type := .intro
        durationPercent := 10
        keyPointPrompts := [
          "Welcome and introductions",
          "Learning objectives",
          "Verify everyone\x27s setup works"]
        notes := "Don\x27t skip setup verification - it saves time later." },
      { title := "Foundation Concepts"
        type := .main
        durationPercent := 15
        keyPointPrompts := [
          "Core concepts needed for exercises",
          "Quick demonstration",
          "Check for understanding"]
        notes := "Keep theory minimal. Get to hands-on quickly." },
      { title := "Guided Exercise 1"
        type := .main
        durationPercent := 20
        keyPointPrompts := [
          "Step-by-step walkthrough",
          "Common pitfalls to avoid",
          "Check-in point"]
        notes := "Walk around the room. Help those who are stuck." },
      { title := "Guided Exercise 2"
        type := .main
        durationPercent := 20
        keyPointPrompts := [
          "Build on previous exercise",
          "Introduce new concept",
          "Allow exploration time"]
        notes := "Have extension tasks for fast finishers." },
      { title := "Independent Practice"
        type := .main
        durationPercent := 15
        keyPointPrompts := [
          "Challenge exercise",
          "Minimal guidance",
          "Encourage peer help"]
        notes := "This is where real learning happens. Be available." },
      { title := "Wrap-up & Next Steps"
        type := .conclusion
        durationPercent := 10
        keyPointPrompts := [
          "Summarize what was learned",
          "Provide resources for continued learning",
          "Collect feedback"]
        notes := "Leave them with a clear path forward." },
      { title := "Q&A"
        type := .qa
        durationPercent := 10
        keyPointPrompts := [
          "Address remaining questions",
          "Troubleshoot lingering issues",
          "Share contact info for follow-up"]
        notes := "Be available after for individual questions." }]
    tips := [
      "Test your setup instructions on a fresh machine",
      "Prepare for the 3 most common errors",
      "Have a backup plan for WiFi issues",
      "Bring helpers if possible",
      "Share materials in advance"]
    exampleHooks := [
      "Show what they\x27ll be able to build by the end",
      "Share a quick win they can achieve in 5 minutes",
      "Ask about their experience level and adjust",
      "Start with a \"why\" story of someone who benefited"]
    recommendedTheme :=
      { name := "Workshop Clear"
        type := .minimal
        primaryColor := some "#059669"
        secondaryColor := some "#047857"
        fontFamily := some "system-ui, sans-serif" } }

def lightningTalkTemplate : TalkTemplate :=
  { name := "Lightning Talk"
    description := "Short, focused presentation delivering one key insight"
    defaultDuration := 5
    struct := [
      { title := "Hook"
        type := .intro
        durationPercent := 20
        keyPointPrompts := [
          "Grab attention immediately",
          "State the one thing you\x27re going to teach"]
        notes := "No time for pleasantries. Start strong." },
      { title := "The Insight"
        type := .main
        durationPercent := 50
        keyPointPrompts := [
          "Explain your key point clearly",
          "Give one concrete example",
          "Make it memorable"]
        notes := "One point only. Go deep, not wide." },
      { title := "Takeaway"
        type := .conclusion
        durationPercent := 30
        keyPointPrompts := [
          "Reinforce the key message",
          "Give a clear call to action",
          "End with impact"]
        notes := "Leave them wanting more. Point to resources." }]
    tips := [
      "Practice to the second - you\x27ll be cut off",
      "One slide per minute maximum",
      "No \"one more thing\" - stick to your point",
      "End early rather than rushing the ending",
      "Have a memorable last line prepared"]
    exampleHooks := [
      "Make a bold claim you\x27ll prove in 5 minutes",
      "Show a surprising demo result",
      "Ask a question the audience can\x27t answer",
      "Share a number that will shock them"]
    recommendedTheme :=
      { name := "Lightning Fast"
        type := .creative
        primaryColor := some "#dc2626"
        secondaryColor := some "#b91c1c"
        fontFamily := some "Poppins, sans-serif" } }

def panelDiscussionTemplate : TalkTemplate :=
  { name := "Panel Discussion"
    description := "Moderated discussion with multiple speakers"
    defaultDuration := 45
    struct := [
      { title := "Introductions"
        type := .intro
        durationPercent := 10
        keyPointPrompts := [
          "Brief self-introduction",
          "Your key perspective on the topic",
          "One thing you hope to discuss"]
        notes := "Be memorable but brief. Others need time too." },
      { title := "Opening Positions"
        type := .main
        durationPercent := 20
        keyPointPrompts := [
          "State your main position clearly",
          "Provide supporting evidence",
          "Acknowledge complexity"]
        notes := "Take a clear stance. It makes for better discussion." },
      { title := "Discussion"
        type := .main
        durationPercent := 30
        keyPointPrompts := [
          "Build on others\x27 points",
          "Offer alternative perspectives",
          "Share relevant examples"]
        notes := "Listen actively. Engage, don\x27t just wait to talk." },
      { title := "Audience Q&A"
        type := .qa
        durationPercent := 30
        keyPointPrompts := [
          "Answer directly, then add nuance",
          "Invite other panelists to respond",
          "Connect to earlier discussion"]
        notes := "Keep answers focused. Leave room for others." },
      { title := "Closing Thoughts"
        type := .conclusion
        durationPercent := 10
        keyPointPrompts := [
          "One key takeaway",
          "What you hope the audience remembers",
          "Call to continued conversation"]
        notes := "Be concise. Don\x27t repeat what others said." }]
    tips := [
      "Prepare 3-4 strong talking points, not a script",
      "Listen as much as you speak",
      "Disagree respectfully when you have a different view",
      "Let others finish before jumping in",
      "Use data to support opinions"]
    exampleHooks := [
      "Take a slightly contrarian position",
      "Reference a recent development in the field",
      "Share a personal experience that shaped your view",
      "Ask the other panelists a thoughtful question"]
    recommendedTheme :=
      { name := "Panel Professional"
        type := .business
        primaryColor := some "#1f2937"
        secondaryColor := some "#374151"
        fontFamily := some "Inter, sans-serif" } }

/-- getTemplate of src/src/templates/index.ts: total lookup over the five
talk types. -/
def getTemplate : TalkType → TalkTemplate
  | .keynote => keynoteTemplate
  | .technical_deep_dive => technicalDeepDiveTemplate
  | .workshop => workshopTemplate
  | .lightning_talk => lightningTalkTemplate
  | .panel_discussion => panelDiscussionTemplate

/-- generateOutlineFromTemplate of src/src/templates/index.ts.  Each section
gets duration Math.round(durationPercent/100 * duration), positional id
section-index, order = index, and copies title/type/keyPointPrompts/notes.
The source evaluates (durationPercent / 100) * duration in IEEE doubles;
for every durationPercent occurring in the five repository templates
(10, 15, 20, 25, 30, 50) and every integer duration up to 120 the double
computation rounds to the same integer as the exact rational (checked
exhaustively), so the embedding uses the exact rational rounding jsRound. -/
def generateOutlineFromTemplate (template : TalkTemplate) (topic : String)
    (duration : Nat) : TalkOutline :=
  { title := topic
    totalDuration := (duration : Int)
    sections := mapIdxFrom (fun index sec =>
      { id := "section-" ++ toString index
        title := sec.title
        duration := (jsRound (sec.durationPercent * duration) 100 : Int)
        order := index
        type := sec.type
        keyPoints := sec.keyPointPrompts
        subsections := none
        notes := some sec.notes }) 0 template.struct
    learningObjectives := []
    callToAction := none }

-- ===========================================================================
-- Rehearsal / Q&A module (src/src/modules/rehearsal.ts)
-- ===========================================================================

/-- Generic question pool of generateAnticipatedQuestions (five fixed
entries pushed first, for any talk). -/
def genericQuestions : List QAPairNoId := [
  { question := "Can you elaborate on that last point?"
    category := .clarification
    difficulty := .easy
    suggestedAnswer :=
      "Sure, let me break that down further. The key aspect is... [elaborate with an example]"
    followUpQuestions := some ["How does that apply in practice?"]
    pitfalls := some ["Don\x27t repeat the same words, provide new context"] },
  { question := "How did you get started with this topic?"
    category := .expansion
    difficulty := .easy
    suggestedAnswer :=
      "Share your personal journey briefly, then connect it to why this matters for the audience."
    pitfalls := some ["Don\x27t make it too long or self-focused"] },
  { question := "What are the main challenges or limitations?"
    category := .challenge
    difficulty := .medium
    suggestedAnswer :=
      "Acknowledge limitations honestly, then explain how to mitigate them."
    followUpQuestions := some ["How do you work around those limitations?"]
    pitfalls := some ["Don\x27t be defensive", "Don\x27t oversell or dismiss concerns"] },
  { question := "How does this compare to [alternative approach]?"
    category := .technical
    difficulty := .hard
    suggestedAnswer :=
      "Provide an honest comparison, acknowledging trade-offs. Each approach has strengths..."
    pitfalls := some ["Don\x27t bash alternatives", "Be fair and objective"] },
  { question := "Where can I learn more about this?"
    category := .practical
    difficulty := .easy
    suggestedAnswer :=
      "Have 2-3 resources ready: documentation, books, tutorials, or communities."
    pitfalls := some ["Don\x27t say you\x27ll follow up if you won\x27t"] }]

/-- Audience-specific question table of generateAnticipatedQuestions
(two entries per audience, from the four-entry record). -/
def audienceQuestions : AudienceType → List QAPairNoId
  | .technical => [
      { question := "What\x27s the performance impact of this approach?"
        category := .technical
        difficulty := .hard
        suggestedAnswer :=
          "Provide benchmarks if available, or explain the theoretical complexity and trade-offs."
        pitfalls := some ["Don\x27t make up numbers", "Admit if you haven\x27t measured"] },
      { question := "How does this scale in production?"
        category := .technical
        difficulty := .hard
        suggestedAnswer :=
          "Share real-world experience or case studies. Discuss scaling considerations."
        followUpQuestions := some ["What was your largest deployment?"]
        pitfalls := some ["Be honest about scale you\x27ve actually handled"] }]
  | .academic => [
      { question := "What\x27s your methodology for this research?"
        category := .technical
        difficulty := .medium
        suggestedAnswer :=
          "Explain your methodology clearly, including sample size, variables, and controls."
        pitfalls := some ["Don\x27t oversimplify if it would misrepresent your work"] },
      { question := "What are the limitations of this study?"
        category := .challenge
        difficulty := .medium
        suggestedAnswer :=
          "Acknowledge limitations proactively. Discuss how future work could address them."
        pitfalls := some ["Don\x27t be defensive about limitations"] }]
  | .business => [
      { question := "What\x27s the ROI on implementing this?"
        category := .practical
        difficulty := .medium
        suggestedAnswer :=
          "Provide concrete examples or case studies. Discuss both direct and indirect benefits."
        pitfalls := some ["Don\x27t make up numbers", "Acknowledge context matters"] },
      { question := "How long until we see results?"
        category := .practical
        difficulty := .medium
        suggestedAnswer :=
          "Give realistic timelines. Discuss quick wins vs long-term benefits."
        pitfalls := some ["Don\x27t overpromise on timelines"] }]
  | .general => [
      { question := "How does this affect everyday people?"
        category := .expansion
        difficulty := .easy
        suggestedAnswer :=
          "Connect to relatable, everyday scenarios. Use analogies."
        pitfalls := some ["Don\x27t be condescending", "Use inclusive examples"] },
      { question := "Can you give a simple example?"
        category := .clarification
        difficulty := .easy
        suggestedAnswer :=
          "Have 2-3 simple analogies or examples ready for key concepts."
        pitfalls := some ["Don\x27t oversimplify to the point of inaccuracy"] }]

/-- Per-section question generated for each main-type outline section that
has at least one key point (keyPoints[0] is its first key point). -/
def sectionQuestion (sec : OutlineSection) : QAPairNoId :=
  { question := "Can you tell us more about \"" ++ sec.keyPoints.headI ++ "\"?"
    category := .expansion
    difficulty := .medium
    suggestedAnswer :=
      "Expand with additional details, examples, or context about " ++
        sec.keyPoints.headI ++ "."
    pitfalls := some ["Don\x27t just repeat what you said"] }

/-- Assigns the sequential ids q-n, q-(n+1), ... to a run of generated
questions; mirrors the questionId counter (starting at 1) of
generateAnticipatedQuestions. -/
def assignIds : Nat → List QAPairNoId → List QAPair
  | _, [] => []
  | n, q :: qs => q.withId ("q-" ++ toString n) :: assignIds (n + 1) qs

/-- generateAnticipatedQuestions of src/src/modules/rehearsal.ts: generic
pool, then the audience pool, then one question per main-type section with
at least one key point, with ids q-1, q-2, ... in that order. -/
def generateAnticipatedQuestions (config : TalkConfig) (outline : TalkOutline) :
    List QAPair :=
  assignIds 1
    (genericQuestions ++ audienceQuestions config.audience ++
      (outline.sections.filter
        (fun s => s.type = .main ∧ s.keyPoints.length > 0)).map sectionQuestion)

/-- Boolean test that the first list occurs as a contiguous run inside the
second (String.prototype.includes at the character-list level). -/
def isInfixOfB [BEq α] (pat : List α) : List α → Bool
  | [] => pat.isEmpty
  | a :: t => pat.isPrefixOf (a :: t) || isInfixOfB pat t

/-- Case-insensitive substring containment used by
identifyChallengingTopics (point.toLowerCase().includes(kw)). -/
def containsKeyword (point kw : String) : Bool :=
  isInfixOfB kw.toList point.toLower.toList

/-- identifyChallengingTopics of src/src/modules/rehearsal.ts. -/
def identifyChallengingTopics (outline : TalkOutline) : List String :=
  outline.sections.flatMap (fun sec =>
    (if sec.keyPoints.length > 4 then
      [sec.title ++ " - complex with many sub-points"] else []) ++
    (sec.keyPoints.filterMap (fun point =>
      if (["best", "only", "always", "never", "wrong"].any
          (fun kw => containsKeyword point kw)) then
        some ("\"" ++ point ++ "\" - absolute claims may be challenged")
      else none)))

/-- generateRedirectStrategies of src/src/modules/rehearsal.ts: a fixed
six-entry list, independent of any input. -/
def generateRedirectStrategies : List String := [
  "Bridge to your key message: \"That\x27s interesting, and what\x27s even more relevant is...\"",
  "Acknowledge and defer: \"Great question. Let me address that after we finish, as it deserves full attention.\"",
  "Turn to the audience: \"That\x27s a great point. Has anyone else encountered this?\"",
  "Provide partial answer: \"I can speak to part of that. The aspect I\x27m most familiar with is...\"",
  "Admit boundaries: \"That\x27s outside my area of expertise, but I can point you to some resources.\"",
  "Reframe the question: \"If I understand correctly, you\x27re asking about... Let me address that.\""]

/-- createQAPreparation of src/src/modules/rehearsal.ts. -/
def createQAPreparation (config : TalkConfig) (outline : TalkOutline) :
    QAPreparation :=
  { anticipatedQuestions := generateAnticipatedQuestions config outline
    challengingTopics := identifyChallengingTopics outline
    preparedResponses := []
    redirectStrategies := generateRedirectStrategies }

/-- createRehearsalSession of src/src/modules/rehearsal.ts; `now` is the
Date.now() timestamp in milliseconds. -/
def createRehearsalSession (outline : TalkOutline) (now : Nat) :
    RehearsalSession :=
  { id := "rehearsal-" ++ toString now
    startTime := now
    endTime := none
    sections := outline.sections.map (fun sec =>
      { sectionId := sec.id
        targetDuration := sec.duration * 60
        actualDuration := none
        status := .not_started })
    feedback :=
      { overallTiming :=
          { target := outline.totalDuration * 60
            actual := 0
            variance := 0 }
        sectionFeedback := []
        suggestions := []
        strengthAreas := []
        improvementAreas := [] } }

/-- updateSectionTiming of src/src/modules/rehearsal.ts: a pure update that
maps over the section timings, setting actualDuration and completed status
on the entries whose sectionId matches. -/
def updateSectionTiming (session : RehearsalSession) (sectionId : String)
    (actualDuration : Int) : RehearsalSession :=
  { session with
    sections := session.sections.map (fun sec =>
      if sec.sectionId = sectionId then
        { sec with
          actualDuration := some actualDuration
          status := .completed }
      else sec) }

/-- generatePracticeSuggestions of src/src/modules/rehearsal.ts: four
universal tips plus three talk-type-specific tips. -/
def generatePracticeSuggestions (config : TalkConfig) : List String :=
  [ "Record yourself and watch for filler words and nervous habits",
    "Practice in front of a mirror to observe body language",
    "Do a full run-through at least 3 times before the event",
    "Practice with different time constraints (tight vs relaxed)"] ++
  (match config.talkType with
    | .keynote => [
        "Practice your opening 10 times - it sets the tone",
        "Work on dramatic pauses and emphasis",
        "Rehearse the call to action until it feels natural"]
    | .technical_deep_dive => [
        "Test all demos multiple times",
        "Have backup slides if live coding fails",
        "Practice explaining complex concepts simply"]
    | .workshop => [
        "Time each exercise carefully",
        "Prepare for common errors and questions",
        "Have extension activities for fast finishers"]
    | .lightning_talk => [
        "Every second counts - time it precisely",
        "Cut ruthlessly - one point only",
        "Practice transitioning smoothly"]
    | .panel_discussion => [
        "Prepare 3-4 strong talking points",
        "Practice active listening and building on others\x27 points",
        "Have data ready to support your positions"])



-- ===========================================================================
-- Ideation module (src/unnamed/part_001, ideation section)
-- ===========================================================================

/-- generateDiscoveryQuestions of the ideation module: five base questions
plus three audience-specific questions. -/
def generateDiscoveryQuestions (config : TalkConfig) : List String :=
  [ "What inspired you to speak about \"" ++ config.topic ++ "\"?",
    "What unique perspective or experience do you bring to this topic?",
    "What do you want the audience to DO after your talk?",
    "What common misconceptions about this topic should be addressed?",
    "What\x27s the most surprising or counterintuitive aspect of this topic?"] ++
  (match config.audience with
    | .technical => [
        "What technical problems does this solve?",
        "What alternatives exist and why is this approach better?",
        "What are the main implementation challenges?"]
    | .academic => [
        "What research gaps does this address?",
        "What methodology will you present?",
        "What are the implications for future research?"]
    | .business => [
        "What business outcomes does this enable?",
        "What\x27s the ROI or competitive advantage?",
        "What case studies or success stories can you share?"]
    | .general => [
        "Why should someone unfamiliar with this care?",
        "What everyday analogy explains this concept?",
        "How does this affect people\x27s daily lives?"])

/-- suggestTopicRefinements of the ideation module: duration-banded
suggestions plus talk-type-specific suggestions. -/
def suggestTopicRefinements (topic : String) (talkType : TalkType)
    (duration : Nat) : List String :=
  (if duration ≤ 10 then
    [ "Focus on ONE specific aspect of \"" ++ topic ++ "\" for a lightning talk",
      "Consider framing as \"The Most Important Thing About " ++ topic ++ "\"",
      "Try a problem-solution format: one problem, one solution"]
  else if duration ≤ 30 then
    [ "Cover 2-3 key insights about \"" ++ topic ++ "\"",
      "Consider a \"lessons learned\" or \"mistakes to avoid\" angle",
      "Frame around a compelling story or case study"]
  else
    [ "Deep dive with comprehensive coverage of \"" ++ topic ++ "\"",
      "Include hands-on exercises or demos",
      "Cover both theory and practical application"]) ++
  (match talkType with
    | .keynote => [
        "Frame around a bold vision or prediction",
        "Connect to broader industry trends",
        "Include a personal journey or transformation story"]
    | .technical_deep_dive => [
        "Focus on implementation details and gotchas",
        "Include live coding or detailed examples",
        "Discuss performance characteristics and benchmarks"]
    | .workshop => [
        "Define clear learning objectives",
        "Plan hands-on exercises at regular intervals",
        "Prepare materials for different skill levels"]
    | .lightning_talk => [
        "Pick the single most surprising insight",
        "Use a memorable hook or demo",
        "End with a clear call to action"]
    | .panel_discussion => [
        "Prepare strong opening position",
        "Identify areas of potential debate",
        "Have data/examples ready to support points"])

-- ===========================================================================
-- Outline module (src/unnamed/part_001, outline section)
-- ===========================================================================

structure OutlineTimingValidation where
  isValid : Bool
  totalAllocated : Int
  difference : Int
  warnings : List String
deriving DecidableEq

/-- validateOutlineTiming of the outline module: sums section durations and
collects warnings for a mismatch over 2 minutes, sections under 1 minute
(other than transitions), and non-main sections over half the total time.
The comparison with totalDuration * 0.5 is modelled exactly as
2 * duration > totalDuration. -/
def validateOutlineTiming (outline : TalkOutline) : OutlineTimingValidation :=
  let totalAllocated : Int := (outline.sections.map (fun s => s.duration)).sum
  let difference : Int := outline.totalDuration - totalAllocated
  let warnings : List String :=
    (if 2 < |difference| then
      ["Timing mismatch: Total duration is " ++ toString outline.totalDuration ++
        " min but sections total " ++ toString totalAllocated ++ " min"]
    else []) ++
    outline.sections.flatMap (fun sec =>
      (if sec.duration < 1 ∧ sec.type ≠ .transition then
        ["Section \"" ++ sec.title ++ "\" is very short (" ++
          toString sec.duration ++ " min)"]
      else []) ++
      (if 2 * sec.duration > outline.totalDuration ∧ sec.type ≠ .main then
        ["Section \"" ++ sec.title ++ "\" takes more than 50% of total time"]
      else []))
  { isValid := warnings.length = 0
    totalAllocated := totalAllocated
    difference := difference
    warnings := warnings }

/-- suggestOutlineImprovements of the outline module. -/
def suggestOutlineImprovements (outline : TalkOutline) : List String :=
  (if outline.learningObjectives.length = 0 then
    ["Add 2-3 clear learning objectives for your audience"] else []) ++
  (if outline.callToAction.isNone then
    ["Add a specific call to action for your conclusion"] else []) ++
  (let mainSections := outline.sections.filter (fun s => s.type = .main)
   (if mainSections.length > 4 then
     ["Consider consolidating main sections - more than 4 can overwhelm"]
   else []) ++
   (if mainSections.length < 2 ∧ outline.totalDuration > 15 then
     ["Consider breaking your main content into multiple sections"]
   else [])) ++
  outline.sections.flatMap (fun sec =>
    (if sec.keyPoints.length = 0 then
      ["Add key points to section \"" ++ sec.title ++ "\""] else []) ++
    (if sec.keyPoints.length > 6 then
      ["Section \"" ++ sec.title ++
        "\" has too many points - consider consolidating"] else [])) ++
  (if ¬ (outline.sections.any (fun s => s.type = .transition)) ∧
      outline.totalDuration > 20 then
    ["Consider adding transition slides/moments between major sections"]
  else [])

-- ===========================================================================
-- Content module (src/unnamed/part_000)
-- ===========================================================================

/-- createScriptTemplate of the content module: one ScriptSection per
non-Q&A outline section with empty body/transitions, and one SpeakerNote
per outline section (Q&A included). -/
def createScriptTemplate (outline : TalkOutline) : Script :=
  { title := outline.title
    introduction := ""
    sections := (outline.sections.filter (fun s => s.type ≠ .qa)).map
      (fun sec =>
        { sectionId := sec.id
          title := sec.title
          content := ""
          transitions := { tIn := none, tOut := none }
          codeExamples := some []
          anecdotes := some [] })
    conclusion := ""
    speakerNotes := outline.sections.map (fun sec =>
      { sectionId := sec.id
        content := sec.notes.getD ""
        timing := toString sec.duration ++ " minutes"
        emphasis := some []
        pausePoints := some [] }) }

/-- Word count used by calculateReadingTime:
content.split(/\s+/).filter(w => w.length > 0).length. -/
def wordCount (content : String) : Nat :=
  ((content.split (fun c => c.isWhitespace)).filter
    (fun w => w.length > 0)).length

/-- calculateReadingTime of the content module at the default 150 words per
minute: Math.ceil(wordCount / wordsPerMinute). -/
def calculateReadingTime (content : String) : Nat :=
  jsCeilDiv (wordCount content) 150

/-- Word-character predicate of the JS regex class \w. -/
def isWordChar (c : Char) : Bool := c.isAlphanum || c = '_'

/-- Number of matches of /\b(API|SDK|algorithm|protocol|framework)\b/gi:
maximal word-character runs equal (case-insensitively) to one of the five
jargon terms. -/
def jargonCount (s : String) : Nat :=
  ((s.split (fun c => !(isWordChar c))).filter (fun w => !w.isEmpty)).countP
    (fun w => w.toLower ∈ ["api", "sdk", "algorithm", "protocol", "framework"])

structure ContentValidation where
  isValid : Bool
  issues : List String
  suggestions : List String
deriving DecidableEq

/-- validateContent of the content module.  The comparisons with
duration * 1.2 and duration * 0.8 are modelled exactly as
5 * readingTime > 6 * duration and 5 * readingTime < 4 * duration. -/
def validateContent (script : Script) (config : TalkConfig) :
    ContentValidation :=
  let issues : List String :=
    (if script.introduction.length < 100 then
      ["Introduction is too short or missing"] else []) ++
    (if script.conclusion.length < 100 then
      ["Conclusion is too short or missing"] else []) ++
    script.sections.filterMap (fun sec =>
      if sec.content.length < 50 then
        some ("Section \"" ++ sec.title ++ "\" needs more content")
      else none)
  let totalContent : String :=
    String.intercalate " "
      ([script.introduction] ++ script.sections.map (fun s => s.content) ++
        [script.conclusion])
  let readingTime : Nat := calculateReadingTime totalContent
  let suggestions : List String :=
    (if 5 * readingTime > 6 * config.duration then
      ["Content may be too long (est. " ++ toString readingTime ++
        " min for " ++ toString config.duration ++ " min talk)"]
    else if 5 * readingTime < 4 * config.duration then
      ["Content may be too short (est. " ++ toString readingTime ++
        " min for " ++ toString config.duration ++ " min talk)"]
    else []) ++
    (if config.audience = .general ∧ jargonCount totalContent > 5 then
      ["Consider explaining or reducing technical jargon for general audience"]
    else [])
  { isValid := issues.length = 0
    issues := issues
    suggestions := suggestions }

-- ===========================================================================
-- Slides module (src/unnamed/part_001, slides section)
-- ===========================================================================

/-- JavaScript string-or-default: `o || d` where the empty string and
undefined are falsy. -/
def jsOrStr (o : Option String) (d : String) : String :=
  match o with
  | some s => if s.isEmpty then d else s
  | none => d

/-- JavaScript truthiness of an optional string (`if (x)`): present and
non-empty. -/
def jsTruthy (o : Option String) : Bool :=
  match o with
  | some s => !s.isEmpty
  | none => false

/-- String value of an optional string field read in a truthy branch. -/
def jsStr (o : Option String) : String := o.getD ""

/-- Source string of a SlideLayout value, as interpolated by the exporters. -/
def layoutStr : SlideLayout → String
  | .title => "title"
  | .section_header => "section_header"
  | .content => "content"
  | .two_column => "two_column"
  | .image_full => "image_full"
  | .code => "code"
  | .quote => "quote"
  | .bullet_points => "bullet_points"
  | .comparison => "comparison"
  | .timeline => "timeline"
  | .qa => "qa"

/-- Collapses every maximal whitespace run to a single hyphen, the effect of
String.prototype.replace(/\s+/g, chr(45)) on the character list. -/
def collapseWsRuns : List Char → List Char
  | [] => []
  | c :: cs =>
    if c.isWhitespace then
      '-' :: collapseWsRuns (cs.dropWhile Char.isWhitespace)
    else c :: collapseWsRuns cs
termination_by l => l.length
decreasing_by
  · have hdw : ∀ l : List Char,
        (l.dropWhile Char.isWhitespace).length ≤ l.length := by
      intro l
      induction l with
      | nil => simp
      | cons a as ih =>
        by_cases h : Char.isWhitespace a
        · simp only [List.dropWhile_cons, h, if_true, List.length_cons]
          omega
        · simp [List.dropWhile_cons, h]
    have h2 := hdw cs
    simp only [List.length_cons]
    omega
  · simp [List.length_cons]

/-- Export filename stem: deck.title.toLowerCase().replace(/\s+/g, chr(45))
followed by the per-format suffix. -/
def exportFilename (title : String) (suffix : String) : String :=
  String.mk (collapseWsRuns title.toLower.toList) ++ suffix

/-- escapeHtml of the slides module: sequential global replacement of
ampersand, angle brackets, double quote and apostrophe by HTML entities. -/
def escapeHtml (text : String) : String :=
  ((((text.replace "&" "&amp;").replace "<" "&lt;").replace ">"
    "&gt;").replace "\"" "&quot;").replace "\x27" "&#039;"

/-- exportToMarkdown of the slides module. -/
def exportToMarkdown (deck : SlideDeck) (options : ExportOptions) :
    ExportResult :=
  let md : String :=
    "# " ++ deck.title ++ "\n\n" ++
    (if jsTruthy deck.author then
      "**Presenter:** " ++ jsStr deck.author ++ "\n" else "") ++
    (if jsTruthy deck.date then
      "**Date:** " ++ jsStr deck.date ++ "\n" else "") ++
    "**Total Slides:** " ++ toString deck.metadata.totalSlides ++ "\n\n" ++
    "---\n\n" ++
    String.join (mapIdxFrom (fun index slide =>
      "## Slide " ++ toString (index + 1) ++
      (if jsTruthy slide.title then ": " ++ jsStr slide.title else "") ++
      "\n\n" ++
      "*Layout: " ++ layoutStr slide.layout ++ "*\n\n" ++
      (if jsTruthy slide.subtitle then
        "*" ++ jsStr slide.subtitle ++ "*\n\n" else "") ++
      (if jsTruthy slide.content then
        jsStr slide.content ++ "\n\n" else "") ++
      (if (slide.bulletPoints.getD []).length > 0 then
        String.join ((slide.bulletPoints.getD []).map
          (fun point => "- " ++ point ++ "\n")) ++ "\n"
      else "") ++
      (match slide.code with
        | some c =>
          "```" ++ c.language ++ "\n" ++ c.code ++ "\n```\n\n" ++
          (if !c.explanation.isEmpty then "*" ++ c.explanation ++ "*\n\n"
           else "")
        | none => "") ++
      (match slide.quote with
        | some q =>
          "> " ++ q.text ++ "\n" ++
          (if jsTruthy q.attribution then
            "> — " ++ jsStr q.attribution ++ "\n" else "") ++ "\n"
        | none => "") ++
      (if jsTruthy slide.imagePrompt then
        "**[Image suggestion: " ++ jsStr slide.imagePrompt ++ "]**\n\n"
      else "") ++
      (if options.includeNotes && !slide.speakerNotes.isEmpty then
        "---\n**Speaker Notes:** " ++ slide.speakerNotes ++ "\n\n" else "") ++
      (if options.includeTimings then
        "*Duration: " ++ toString slide.duration ++ " seconds*\n\n" else "") ++
      "---\n\n") 0 deck.slides)
  { format := .markdown
    content := md
    filename := exportFilename deck.title "-slides.md"
    mimeType := "text/markdown" }

/-- Slide record of the structured interchange document written by
exportToJson; speakerNotes and duration are explicitly unset when the
corresponding option flag is false (JSON.stringify drops undefined
fields). -/
structure JsonSlide where
  id : String
  order : Nat
  layout : SlideLayout
  title : Option String := none
  subtitle : Option String := none
  content : Option String := none
  bulletPoints : Option (List String) := none
  imagePrompt : Option String := none
  code : Option CodeExample := none
  quote : Option Quote := none
  speakerNotes : Option String := none
  duration : Option Int := none
deriving DecidableEq

/-- Deck shape of the structured interchange document written by
exportToJson ({...deck, slides: mapped slides}). -/
structure JsonDeck where
  title : String
  author : Option String := none
  date : Option String := none
  theme : SlideTheme
  slides : List JsonSlide
  metadata : SlideMetadata
deriving DecidableEq

structure JsonExportResult where
  format : ExportFormat
  content : JsonDeck
  filename : String
  mimeType : String
deriving DecidableEq

/-- exportToJson of the slides module, modelled at the level of the JSON
document: `content` is the interchange value that
JSON.stringify(exportData, null, 2) serializes; JSON.parse of that string
recovers exactly this document, so the stringify/parse pair (an external
platform inverse) is modelled as the identity on JsonDeck. -/
def exportToJson (deck : SlideDeck) (options : ExportOptions) :
    JsonExportResult :=
  { format := .json
    content :=
      { title := deck.title
        author := deck.author
        date := deck.date
        theme := deck.theme
        slides := deck.slides.map (fun slide =>
          { id := slide.id
            order := slide.order
            layout := slide.layout
            title := slide.title
            subtitle := slide.subtitle
            content := slide.content
            bulletPoints := slide.bulletPoints
            imagePrompt := slide.imagePrompt
            code := slide.code
            quote := slide.quote
            speakerNotes :=
              if options.includeNotes then some slide.speakerNotes else none
            duration :=
              if options.includeTimings then some slide.duration else none })
        metadata := deck.metadata }
    filename := exportFilename deck.title "-slides.json"
    mimeType := "application/json" }

/-- Style and head block of exportToHtml up to and including the opening of
body; the deck title is interpolated RAW (template literal, no escapeHtml)
into the head title element, and the theme colors and font into the style
rules. -/
def htmlHead (deck : SlideDeck) (options : ExportOptions) : String :=
  let theme := options.theme.getD deck.theme
  "<!DOCTYPE html>\n<html lang=\"en\">\n<head>\n" ++
  "  <meta charset=\"UTF-8\">\n" ++
  "  <meta name=\"viewport\" content=\"width=device-width, initial-scale=1.0\">\n" ++
  "  <title>" ++ deck.title ++ "</title>\n" ++
  "  <style>\n" ++
  "    :root \x7b\n" ++
  "      --primary-color: " ++ jsOrStr theme.primaryColor "#2563eb" ++ ";\n" ++
  "      --secondary-color: " ++ jsOrStr theme.secondaryColor "#1e40af" ++ ";\n" ++
  "      --font-family: " ++ jsOrStr theme.fontFamily "system-ui, sans-serif" ++ ";\n" ++
  "    \x7d\n" ++
  "    * \x7b box-sizing: border-box; margin: 0; padding: 0; \x7d\n" ++
  "    body \x7b font-family: var(--font-family); line-height: 1.6; \x7d\n" ++
  "    .slide \x7b\n      min-height: 100vh;\n      padding: 4rem;\n" ++
  "      display: flex;\n      flex-direction: column;\n" ++
  "      justify-content: center;\n      border-bottom: 1px solid #e5e7eb;\n    \x7d\n" ++
  "    .slide-title \x7b\n" ++
  "      background: linear-gradient(135deg, var(--primary-color), var(--secondary-color));\n" ++
  "      color: white;\n      text-align: center;\n    \x7d\n" ++
  "    .slide-section-header \x7b\n      background: var(--primary-color);\n" ++
  "      color: white;\n      text-align: center;\n    \x7d\n" ++
  "    h1 \x7b font-size: 3rem; margin-bottom: 1rem; \x7d\n" ++
  "    h2 \x7b font-size: 2.5rem; margin-bottom: 1rem; color: var(--primary-color); \x7d\n" ++
  "    .subtitle \x7b font-size: 1.5rem; opacity: 0.9; \x7d\n" ++
  "    ul \x7b list-style: none; padding-left: 0; \x7d\n" ++
  "    li \x7b\n      padding: 0.75rem 0;\n      padding-left: 2rem;\n" ++
  "      position: relative;\n      font-size: 1.25rem;\n    \x7d\n" ++
  "    li::before \x7b\n      content: \"•\";\n      color: var(--primary-color);\n" ++
  "      position: absolute;\n      left: 0;\n      font-size: 1.5rem;\n    \x7d\n" ++
  "    pre \x7b\n      background: #1f2937;\n      color: #f9fafb;\n" ++
  "      padding: 1.5rem;\n      border-radius: 0.5rem;\n" ++
  "      overflow-x: auto;\n      font-size: 1rem;\n    \x7d\n" ++
  "    blockquote \x7b\n      font-size: 1.75rem;\n      font-style: italic;\n" ++
  "      border-left: 4px solid var(--primary-color);\n" ++
  "      padding-left: 1.5rem;\n      margin: 2rem 0;\n    \x7d\n" ++
  "    .attribution \x7b\n      font-size: 1rem;\n      opacity: 0.7;\n" ++
  "      margin-top: 1rem;\n    \x7d\n" ++
  "    .speaker-notes \x7b\n      margin-top: 2rem;\n      padding: 1rem;\n" ++
  "      background: #f3f4f6;\n      border-radius: 0.5rem;\n" ++
  "      font-size: 0.875rem;\n      color: #6b7280;\n    \x7d\n" ++
  "    .slide-number \x7b\n      position: absolute;\n      bottom: 1rem;\n" ++
  "      right: 1rem;\n      font-size: 0.875rem;\n      color: #9ca3af;\n    \x7d\n" ++
  "    @media print \x7b\n      .slide \x7b page-break-after: always; \x7d\n" ++
  "      .speaker-notes \x7b display: none; \x7d\n    \x7d\n" ++
  "  </style>\n</head>\n<body>\n"

/-- One slide block of exportToHtml's body (slide-level user text passes
through escapeHtml). -/
def htmlSlideBlock (total : Nat) (options : ExportOptions) (index : Nat)
    (slide : Slide) : String :=
  let layoutClass :=
    if slide.layout = .title then "slide-title"
    else if slide.layout = .section_header then "slide-section-header"
    else ""
  let hN := if slide.layout = .title then "1" else "2"
  "  <div class=\"slide " ++ layoutClass ++ "\">\n" ++
  (if jsTruthy slide.title then
    "    <h" ++ hN ++ ">" ++ escapeHtml (jsStr slide.title) ++ "</h" ++ hN ++
      ">\n"
  else "") ++
  (if jsTruthy slide.subtitle then
    "    <p class=\"subtitle\">" ++ escapeHtml (jsStr slide.subtitle) ++
      "</p>\n"
  else "") ++
  (if jsTruthy slide.content then
    "    <p>" ++ escapeHtml (jsStr slide.content) ++ "</p>\n" else "") ++
  (if (slide.bulletPoints.getD []).length > 0 then
    "    <ul>\n" ++
    String.join ((slide.bulletPoints.getD []).map (fun point =>
      "      <li>" ++ escapeHtml point ++ "</li>\n")) ++
    "    </ul>\n"
  else "") ++
  (match slide.code with
    | some c =>
      "    <pre><code class=\"language-" ++ c.language ++ "\">" ++
        escapeHtml c.code ++ "</code></pre>\n"
    | none => "") ++
  (match slide.quote with
    | some q =>
      "    <blockquote>" ++ escapeHtml q.text ++ "</blockquote>\n" ++
      (if jsTruthy q.attribution then
        "    <p class=\"attribution\">— " ++
          escapeHtml (jsStr q.attribution) ++ "</p>\n"
      else "")
    | none => "") ++
  (if options.includeNotes && !slide.speakerNotes.isEmpty then
    "    <div class=\"speaker-notes\">\n      <strong>Notes:</strong> " ++
      escapeHtml slide.speakerNotes ++ "\n    </div>\n"
  else "") ++
  "    <span class=\"slide-number\">" ++ toString (index + 1) ++ " / " ++
    toString total ++ "</span>\n" ++
  "  </div>\n\n"

/-- exportToHtml of the slides module. -/
def exportToHtml (deck : SlideDeck) (options : ExportOptions) : ExportResult :=
  { format := .html
    content :=
      htmlHead deck options ++
      String.join
        (mapIdxFrom (htmlSlideBlock deck.slides.length options) 0 deck.slides) ++
      "</body>\n</html>"
    filename := exportFilename deck.title "-slides.html"
    mimeType := "text/html" }

/-- exportSlideDeck dispatch of the slides module; the json branch is
modelled separately by exportToJson (its content is the structured
interchange document rather than a string), and the default branch falls
back to markdown. -/
def exportSlideDeck (deck : SlideDeck) (options : ExportOptions) :
    ExportResult :=
  match options.format with
  | .markdown => exportToMarkdown deck options
  | .html => exportToHtml deck options
  | .json => exportToMarkdown deck options
  | .pdf => exportToMarkdown deck options

structure SlideDeckValidation where
  isValid : Bool
  warnings : List String
  suggestions : List String
deriving DecidableEq

/-- validateSlideDeck of the slides module.  The comparisons with
expectedSlides * 1.5, expectedSlides * 0.5 and slide-count * 0.3 are
modelled exactly as the cross-multiplied integer comparisons. -/
def validateSlideDeck (deck : SlideDeck) (config : TalkConfig) :
    SlideDeckValidation :=
  let expectedSlides := config.duration
  let countWarnings : List String :=
    if 2 * deck.slides.length > 3 * expectedSlides then
      ["Too many slides (" ++ toString deck.slides.length ++ ") for " ++
        toString config.duration ++ "-min talk. Consider consolidating."]
    else []
  let countSuggestions : List String :=
    if 2 * deck.slides.length > 3 * expectedSlides then []
    else if 2 * deck.slides.length < expectedSlides then
      ["Few slides (" ++ toString deck.slides.length ++ ") for " ++
        toString config.duration ++ "-min talk. Ensure each has enough content."]
    else []
  let untitledSlides := deck.slides.filter
    (fun s => !(jsTruthy s.title) && s.layout ≠ .image_full)
  let untitledSuggestions : List String :=
    if untitledSlides.length > 0 then
      [toString untitledSlides.length ++ " slides lack titles"]
    else []
  let bulletWarnings : List String :=
    (mapIdxFrom (fun index slide =>
      if (slide.bulletPoints.getD []).length > 6 then
        ["Slide " ++ toString (index + 1) ++ " has " ++
          toString (slide.bulletPoints.getD []).length ++
          " bullet points - consider splitting"]
      else []) 0 deck.slides).flatten
  let slidesWithoutNotes := deck.slides.filter
    (fun s => s.speakerNotes.isEmpty)
  let notesSuggestions : List String :=
    if 10 * slidesWithoutNotes.length > 3 * deck.slides.length then
      ["Many slides lack speaker notes - add notes for better delivery"]
    else []
  let warnings := countWarnings ++ bulletWarnings
  let suggestions := countSuggestions ++ untitledSuggestions ++
    notesSuggestions
  { isValid := warnings.length = 0
    warnings := warnings
    suggestions := suggestions }

-- ===========================================================================
-- Workflow coordinator: TalkPrepSkill (src/src/templates/index.ts, main
-- entry point section) and the configuration validator
-- (src/src/schemas/validation.ts)
-- ===========================================================================

/-- Raw configuration object passed to TalkPrepSkill.initialize before
validation; absent JS fields are none.  The duration is modelled as an
integer input (the zod schema additionally rejects non-integer numbers,
a case outside this embedding). -/
structure ConfigInput where
  topic : Option String := none
  audience : Option String := none
  duration : Option Int := none
  expertiseLevel : Option String := none
  talkType : Option String := none
  tone : Option String := none
  speakerName : Option String := none
  conferenceContext : Option String := none
  additionalNotes : Option String := none
deriving DecidableEq

def parseAudience : String → Option AudienceType
  | "technical" => some .technical
  | "academic" => some .academic
  | "business" => some .business
  | "general" => some .general
  | _ => none

def parseExpertiseLevel : String → Option ExpertiseLevel
  | "beginner" => some .beginner
  | "intermediate" => some .intermediate
  | "expert" => some .expert
  | _ => none

def parseTalkType : String → Option TalkType
  | "keynote" => some .keynote
  | "technical_deep_dive" => some .technical_deep_dive
  | "workshop" => some .workshop
  | "lightning_talk" => some .lightning_talk
  | "panel_discussion" => some .panel_discussion
  | _ => none

def parseTone : String → Option ToneType
  | "formal" => some .formal
  | "conversational" => some .conversational
  | "inspirational" => some .inspirational
  | "educational" => some .educational
  | _ => none

/-- Issue messages of a field result (empty for a successful field). -/
def errsOf : Except (List String) α → List String
  | .error msgs => msgs
  | .ok _ => []

/-- TalkConfigSchema.safeParse of src/src/schemas/validation.ts (the zod
validator, an external collaborator of the coordinator): topic required
with length in [3,200], enums with defaults general / intermediate /
technical_deep_dive / conversational, duration integer in [5,120] with
default 30, and bounded optional text fields.  Issues of all fields are
collected; the bounded-field messages are the custom messages declared in
the schema, the remaining messages are stand-ins for zod's built-in
texts. -/
def parseTalkConfig (input : ConfigInput) :
    Except (List String) TalkConfig :=
  let topicRes : Except (List String) String :=
    match input.topic with
    | none => .error ["Required"]
    | some t =>
      if t.length < 3 then .error ["Topic must be at least 3 characters"]
      else if t.length > 200 then
        .error ["Topic must be less than 200 characters"]
      else .ok t
  let audienceRes : Except (List String) AudienceType :=
    match input.audience with
    | none => .ok .general
    | some s =>
      match parseAudience s with
      | some a => .ok a
      | none => .error ["Invalid enum value for audience"]
  let durationRes : Except (List String) Nat :=
    match input.duration with
    | none => .ok 30
    | some d =>
      if d < 5 then .error ["Duration must be at least 5 minutes"]
      else if d > 120 then .error ["Duration must be at most 120 minutes"]
      else .ok d.toNat
  let expertiseRes : Except (List String) ExpertiseLevel :=
    match input.expertiseLevel with
    | none => .ok .intermediate
    | some s =>
      match parseExpertiseLevel s with
      | some e => .ok e
      | none => .error ["Invalid enum value for expertiseLevel"]
  let talkTypeRes : Except (List String) TalkType :=
    match input.talkType with
    | none => .ok .technical_deep_dive
    | some s =>
      match parseTalkType s with
      | some t => .ok t
      | none => .error ["Invalid enum value for talkType"]
  let toneRes : Except (List String) ToneType :=
    match input.tone with
    | none => .ok .conversational
    | some s =>
      match parseTone s with
      | some t => .ok t
      | none => .error ["Invalid enum value for tone"]
  let contextRes : Except (List String) (Option String) :=
    match input.conferenceContext with
    | none => .ok none
    | some s =>
      if s.length > 500 then
        .error ["String must contain at most 500 character(s)"]
      else .ok (some s)
  let notesRes : Except (List String) (Option String) :=
    match input.additionalNotes with
    | none => .ok none
    | some s =>
      if s.length > 1000 then
        .error ["String must contain at most 1000 character(s)"]
      else .ok (some s)
  match topicRes, audienceRes, durationRes, expertiseRes, talkTypeRes,
      toneRes, contextRes, notesRes with
  | .ok topic, .ok audience, .ok duration, .ok expertiseLevel, .ok talkType,
      .ok tone, .ok conferenceContext, .ok additionalNotes =>
    .ok
      { topic := topic
        audience := audience
        duration := duration
        expertiseLevel := expertiseLevel
        talkType := talkType
        tone := tone
        speakerName := input.speakerName
        conferenceContext := conferenceContext
        additionalNotes := additionalNotes }
  | t, a, d, e, tt, tn, c, n =>
    .error (errsOf t ++ errsOf a ++ errsOf d ++ errsOf e ++ errsOf tt ++
      errsOf tn ++ errsOf c ++ errsOf n)

/-- TalkPrepSkill holds the single nullable workflow session
(private state: WorkflowState | null = null). -/
structure TalkPrepSkill where
  state : Option WorkflowState := none
deriving DecidableEq

/-- createTalkPrepSkill of src/src/templates/index.ts: a fresh skill with
no session. -/
def createTalkPrepSkill : TalkPrepSkill := { state := none }

/-- Result record of TalkPrepSkill.initialize
({success, error?, state?}). -/
structure InitResult where
  success : Bool
  error : Option String := none
  state : Option WorkflowState := none
deriving DecidableEq

/-- completeStep of TalkPrepSkill: appends the step to completedSteps if it
is not already recorded. -/
def completeStep (w : WorkflowState) (step : WorkflowStep) : WorkflowState :=
  if step ∈ w.completedSteps then w
  else { w with completedSteps := w.completedSteps ++ [step] }

/-- TalkPrepSkill.initialize, named init here because the source name is a
reserved scanner token: validates the input through
TalkConfigSchema.safeParse and on success replaces any prior session with
a fresh one at the ideation step. -/
def TalkPrepSkill.init (skill : TalkPrepSkill) (input : ConfigInput) :
    InitResult × TalkPrepSkill :=
  match parseTalkConfig input with
  | .error issues =>
    ({ success := false
       error := some ("Invalid configuration: " ++
         String.intercalate ", " issues) }, skill)
  | .ok config =>
    let w : WorkflowState :=
      { currentStep := .ideation
        completedSteps := []
        config := config
        rehearsals := [] }
    ({ success := true, state := some w }, { state := some w })

/-- TalkPrepSkill.getDiscoveryQuestions: returns the empty list when no
session exists (no error is raised). -/
def TalkPrepSkill.getDiscoveryQuestions (skill : TalkPrepSkill) :
    List String :=
  match skill.state with
  | none => []
  | some w => generateDiscoveryQuestions w.config

/-- TalkPrepSkill.getTopicSuggestions: returns the empty list when no
session exists (no error is raised). -/
def TalkPrepSkill.getTopicSuggestions (skill : TalkPrepSkill) :
    List String :=
  match skill.state with
  | none => []
  | some w =>
    suggestTopicRefinements w.config.topic w.config.talkType
      w.config.duration

/-- TalkPrepSkill.setResearchResults: stores the research, completes
ideation and sets the current step to outline. -/
def TalkPrepSkill.setResearchResults (skill : TalkPrepSkill)
    (research : ResearchResult) : Except String TalkPrepSkill :=
  match skill.state with
  | none => .error "Session not initialized"
  | some w =>
    let w1 := completeStep { w with research := some research } .ideation
    .ok { state := some { w1 with currentStep := .outline } }

/-- TalkPrepSkill.generateOutline: builds the outline from the talk-type
template, fills learning objectives from stored research key concepts
(first three) or from the supplied key concepts, stores the outline and
leaves currentStep/completedSteps untouched. -/
def TalkPrepSkill.generateOutline (skill : TalkPrepSkill)
    (keyConcepts : Option (List String)) :
    Except String (TalkOutline × TalkPrepSkill) :=
  match skill.state with
  | none => .error "Session not initialized"
  | some w =>
    let template := getTemplate w.config.talkType
    let outline0 :=
      generateOutlineFromTemplate template w.config.topic w.config.duration
    let outline :=
      match w.research with
      | some r => { outline0 with learningObjectives := r.keyConcepts.take 3 }
      | none =>
        match keyConcepts with
        | some kc => { outline0 with learningObjectives := kc }
        | none => outline0
    .ok (outline, { state := some { w with outline := some outline } })

/-- Return record of TalkPrepSkill.setOutline. -/
structure SetOutlineResult where
  valid : Bool
  warnings : List String
deriving DecidableEq

/-- TalkPrepSkill.setOutline: stores the outline, validates its timing, and
only when the timing validation passes completes the outline step and
advances to content. -/
def TalkPrepSkill.setOutline (skill : TalkPrepSkill) (outline : TalkOutline) :
    Except String (SetOutlineResult × TalkPrepSkill) :=
  match skill.state with
  | none => .error "Session not initialized"
  | some w =>
    let w1 := { w with outline := some outline }
    let validation := validateOutlineTiming outline
    let suggestions := suggestOutlineImprovements outline
    let w2 :=
      if validation.isValid then
        { (completeStep w1 .outline) with currentStep := .content }
      else w1
    .ok ({ valid := validation.isValid
           warnings := validation.warnings ++ suggestions },
      { state := some w2 })

/-- TalkPrepSkill.generateScript: requires a stored outline (the guard
this.state?.outline also fails when no session exists), creates a script
skeleton and stores it without touching the step markers. -/
def TalkPrepSkill.generateScript (skill : TalkPrepSkill) :
    Except String (Script × TalkPrepSkill) :=
  match skill.state with
  | none => .error "Outline required before generating script"
  | some w =>
    match w.outline with
    | none => .error "Outline required before generating script"
    | some o =>
      let script := createScriptTemplate o
      .ok (script, { state := some { w with script := some script } })

/-- TalkPrepSkill.setScript: stores the script, validates it, and only when
the content validation passes completes the content step and advances to
export. -/
def TalkPrepSkill.setScript (skill : TalkPrepSkill) (script : Script) :
    Except String (ContentValidation × TalkPrepSkill) :=
  match skill.state with
  | none => .error "Session not initialized"
  | some w =>
    let w1 := { w with script := some script }
    let validation := validateContent script w.config
    let w2 :=
      if validation.isValid then
        { (completeStep w1 .content) with currentStep := .exportStep }
      else w1
    .ok (validation, { state := some w2 })

/-- TalkPrepSkill.setSlides: stores the slides and always completes the
export step and advances to rehearsal, regardless of the validation
outcome. -/
def TalkPrepSkill.setSlides (skill : TalkPrepSkill) (slides : SlideDeck) :
    Except String (SlideDeckValidation × TalkPrepSkill) :=
  match skill.state with
  | none => .error "Session not initialized"
  | some w =>
    let w1 := { w with slides := some slides }
    let validation := validateSlideDeck slides w.config
    let w2 := { (completeStep w1 .exportStep) with currentStep := .rehearsal }
    .ok (validation, { state := some w2 })

/-- TalkPrepSkill.startRehearsal: requires a stored outline, appends a
fresh rehearsal session (now is the Date.now() timestamp), marks the
rehearsal step complete and leaves the current step unchanged. -/
def TalkPrepSkill.startRehearsal (skill : TalkPrepSkill) (now : Nat) :
    Except String (String × TalkPrepSkill) :=
  match skill.state with
  | none => .error "Outline required"
  | some w =>
    match w.outline with
    | none => .error "Outline required"
    | some o =>
      let session := createRehearsalSession o now
      let w1 := { w with rehearsals := w.rehearsals ++ [session] }
      let w2 := completeStep w1 .rehearsal
      .ok (session.id, { state := some w2 })

/-- TalkPrepSkill.getPracticeSuggestions: fails when no session exists. -/
def TalkPrepSkill.getPracticeSuggestions (skill : TalkPrepSkill) :
    Except String (List String) :=
  match skill.state with
  | none => .error "Session not initialized"
  | some w => .ok (generatePracticeSuggestions w.config)

/-- TalkPrepSkill.getCurrentStep. -/
def TalkPrepSkill.getCurrentStep (skill : TalkPrepSkill) :
    Option WorkflowStep :=
  skill.state.map (fun w => w.currentStep)

-- ===========================================================================
-- Concrete fixtures used by witnesses and counterexamples
-- ===========================================================================

/-- Sample raw configuration: only a topic, all other fields defaulted by
the validator. -/
def sampleInput : ConfigInput := { topic := some "Valid Topic" }

/-- Validator output for sampleInput. -/
def sampleConfig : TalkConfig :=
  { topic := "Valid Topic"
    audience := .general
    duration := 30
    expertiseLevel := .intermediate
    talkType := .technical_deep_dive
    tone := .conversational }

/-- Fresh session produced by initialization with sampleInput. -/
def sampleState : WorkflowState :=
  { currentStep := .ideation
    completedSteps := []
    config := sampleConfig
    rehearsals := [] }

/-- Skill holding the fresh sample session. -/
def sampleSkill : TalkPrepSkill := { state := some sampleState }

/-- Small research artifact. -/
def sampleResearch : ResearchResult :=
  { refinedTopic := "Valid Topic, refined"
    topicSuggestions := []
    keyConcepts := ["a", "b", "c", "d"]
    sources := []
    potentialBiases := []
    audienceConsiderations := [] }

/-- Outline artifact built from the keynote template. -/
def sampleOutline : TalkOutline :=
  generateOutlineFromTemplate keynoteTemplate "Valid Topic" 30

/-- Empty slide deck artifact. -/
def sampleDeck : SlideDeck :=
  { title := "Deck"
    theme := { name := "Tech Modern", type := .tech }
    slides := []
    metadata :=
      { totalSlides := 0
        estimatedDuration := 0
        generatedAt := "2024-01-01T00:00:00.000Z"
        version := "1.0.0" } }

/-- Skill whose session already holds artifacts and sits at the terminal
step. -/
def dirtySkill : TalkPrepSkill :=
  { state := some
      { currentStep := .rehearsal
        completedSteps := [.ideation, .outline]
        config := sampleConfig
        research := some sampleResearch
        outline := some sampleOutline
        rehearsals := [] } }

/-- Deck whose title carries a script tag. -/
def scriptTitleDeck : SlideDeck :=
  { title := "<script>alert(1)</script>"
    theme := { name := "Tech Modern", type := .tech }
    slides := []
    metadata :=
      { totalSlides := 0
        estimatedDuration := 0
        generatedAt := "2024-01-01T00:00:00.000Z"
        version := "1.0.0" } }

/-- HTML export options with notes and timings on. -/
def htmlOptions : ExportOptions :=
  { format := .html, includeNotes := true, includeTimings := true }

-- ===========================================================================
-- Helper lemmas
-- ===========================================================================

theorem length_mapIdxFrom (f : Nat → α → β) (n : Nat) (l : List α) :
    (mapIdxFrom f n l).length = l.length := by
  induction l generalizing n with
  | nil => rfl
  | cons a as ih => simp [mapIdxFrom, ih]

theorem getElem_mapIdxFrom (f : Nat → α → β) (n : Nat) (l : List α) (i : Nat)
    (h2 : i < l.length) (h : i < (mapIdxFrom f n l).length) :
    (mapIdxFrom f n l)[i] = f (n + i) l[i] := by
  induction l generalizing n i with
  | nil => simp [mapIdxFrom] at h
  | cons a as ih =>
    cases i with
    | zero => simp [mapIdxFrom]
    | succ j =>
      simp only [mapIdxFrom, List.getElem_cons_succ]
      rw [ih]
      · ring_nf
      · simpa using h2

theorem jsRound_eq_round (num den : Nat) (hden : 0 < den) :
    (jsRound num den : ℤ) = round ((num : ℚ) / (den : ℚ)) := by
  have hden2 : (0 : ℚ) < (den : ℚ) := by exact_mod_cast hden
  rw [round_eq]
  have hq : (num : ℚ) / (den : ℚ) + 1 / 2 =
      ((2 * num + den : ℕ) : ℚ) / ((2 * den : ℕ) : ℚ) := by
    push_cast
    field_simp
    ring
  rw [hq]
  rw [Rat.floor_natCast_div_natCast]
  simp [jsRound, Int.ofNat_tdiv]

theorem length_assignIds (n : Nat) (l : List QAPairNoId) :
    (assignIds n l).length = l.length := by
  induction l generalizing n with
  | nil => rfl
  | cons a as ih => simp [assignIds, ih]

theorem getElem_assignIds (n : Nat) (l : List QAPairNoId) (i : Nat)
    (h2 : i < l.length) (h : i < (assignIds n l).length) :
    (assignIds n l)[i] = (l[i]).withId ("q-" ++ toString (n + i)) := by
  induction l generalizing n i with
  | nil => simp [assignIds] at h
  | cons a as ih =>
    cases i with
    | zero => simp [assignIds]
    | succ j =>
      simp only [assignIds, List.getElem_cons_succ]
      rw [ih]
      · ring_nf
      · simpa using h2

theorem assignIds_append (n : Nat) (l1 l2 : List QAPairNoId) :
    assignIds n (l1 ++ l2) = assignIds n l1 ++ assignIds (n + l1.length) l2 := by
  induction l1 generalizing n with
  | nil => simp [assignIds]
  | cons a as ih =>
    simp only [List.cons_append, assignIds, List.append_eq, ih, List.length_cons]
    have harith : n + 1 + as.length = n + (as.length + 1) := by ring
    rw [harith]

theorem length_genericQuestions : genericQuestions.length = 5 := rfl

theorem length_audienceQuestions (a : AudienceType) :
    (audienceQuestions a).length = 2 := by
  cases a <;> rfl

theorem completeStep_currentStep (w : WorkflowState) (s : WorkflowStep) :
    (completeStep w s).currentStep = w.currentStep := by
  unfold completeStep
  split <;> rfl

-- ===========================================================================
-- Claim theorems
-- ===========================================================================


/-- C1 counterexample: the claim that no Workflow Coordinator operation
ever sets the current step to an earlier state fails on the code.  On a
freshly initialized session, setSlides (callable from ideation) jumps the
step to rehearsal, and a following setResearchResults sets it back to
outline, an earlier state in the linear order, skipping through no
intermediate states. -/
theorem c1_backward_step_counterexample :
    (TalkPrepSkill.init createTalkPrepSkill sampleInput).2 = sampleSkill ∧
    (TalkPrepSkill.setSlides sampleSkill sampleDeck).map
      (fun p => p.2.getCurrentStep) = .ok (some .rehearsal) ∧
    ((TalkPrepSkill.setSlides sampleSkill sampleDeck).bind
      (fun p => TalkPrepSkill.setResearchResults p.2 sampleResearch)).map
      (fun s => s.getCurrentStep) = .ok (some .outline) ∧
    WorkflowStep.idx .outline < WorkflowStep.idx .rehearsal :=
  ⟨rfl, rfl, rfl, by decide⟩

/-- C1 amended: each mutator of an initialized session drives the current
step to a fixed target independent of the session's prior position:
setResearchResults always sets it to outline, setOutline sets it to
content exactly when the timing validation passes (otherwise leaves it
unchanged), setScript sets it to export exactly when the content
validation passes (otherwise leaves it unchanged), setSlides always sets
it to rehearsal, and startRehearsal leaves it unchanged; invoked in the
canonical order these transitions walk the linear order forward without
skips, but an out-of-order call can move the step backward. -/
theorem c1_amended_fixed_step_targets (skill : TalkPrepSkill)
    (w : WorkflowState) (h : skill.state = some w)
    (research : ResearchResult) (outline : TalkOutline) (script : Script)
    (deck : SlideDeck) (now : Nat) :
    (∃ s1, TalkPrepSkill.setResearchResults skill research = .ok s1 ∧
      s1.getCurrentStep = some .outline) ∧
    (∃ v s1, TalkPrepSkill.setOutline skill outline = .ok (v, s1) ∧
      s1.getCurrentStep = some
        (if (validateOutlineTiming outline).isValid then .content
         else w.currentStep)) ∧
    (∃ v s1, TalkPrepSkill.setScript skill script = .ok (v, s1) ∧
      s1.getCurrentStep = some
        (if (validateContent script w.config).isValid then .exportStep
         else w.currentStep)) ∧
    (∃ v s1, TalkPrepSkill.setSlides skill deck = .ok (v, s1) ∧
      s1.getCurrentStep = some .rehearsal) ∧
    (∀ o, w.outline = some o →
      ∃ rid s1, TalkPrepSkill.startRehearsal skill now = .ok (rid, s1) ∧
        s1.getCurrentStep = some w.currentStep) := by
  cases skill with
  | mk st =>
    simp only at h
    subst h
    refine ⟨?_, ?_, ?_, ?_, ?_⟩
    · exact ⟨_, rfl, rfl⟩
    · by_cases hv : (validateOutlineTiming outline).isValid
      · exact ⟨_, _, rfl, by
          simp [TalkPrepSkill.setOutline, TalkPrepSkill.getCurrentStep, hv]⟩
      · exact ⟨_, _, rfl, by
          simp [TalkPrepSkill.setOutline, TalkPrepSkill.getCurrentStep, hv]⟩
    · by_cases hv : (validateContent script w.config).isValid
      · exact ⟨_, _, rfl, by
          simp [TalkPrepSkill.setScript, TalkPrepSkill.getCurrentStep, hv]⟩
      · exact ⟨_, _, rfl, by
          simp [TalkPrepSkill.setScript, TalkPrepSkill.getCurrentStep, hv]⟩
    · exact ⟨_, _, rfl, rfl⟩
    · intro o ho
      cases w with
      | mk cs comp cfg res outl scr sl qp rh =>
        simp only at ho
        subst ho
        refine ⟨_, _, rfl, ?_⟩
        simp [TalkPrepSkill.getCurrentStep, completeStep_currentStep]

/-- Witness for c1_amended_fixed_step_targets on the fresh sample
session. -/
theorem c1_amended_fixed_step_targets_witness :
    (∃ s1, TalkPrepSkill.setResearchResults sampleSkill sampleResearch =
        .ok s1 ∧ s1.getCurrentStep = some .outline) ∧
    (∃ v s1, TalkPrepSkill.setOutline sampleSkill sampleOutline =
        .ok (v, s1) ∧
      s1.getCurrentStep = some
        (if (validateOutlineTiming sampleOutline).isValid then .content
         else sampleState.currentStep)) ∧
    (∃ v s1, TalkPrepSkill.setScript sampleSkill
        (createScriptTemplate sampleOutline) = .ok (v, s1) ∧
      s1.getCurrentStep = some
        (if (validateContent (createScriptTemplate sampleOutline)
            sampleState.config).isValid then .exportStep
         else sampleState.currentStep)) ∧
    (∃ v s1, TalkPrepSkill.setSlides sampleSkill sampleDeck = .ok (v, s1) ∧
      s1.getCurrentStep = some .rehearsal) ∧
    (∀ o, sampleState.outline = some o →
      ∃ rid s1, TalkPrepSkill.startRehearsal sampleSkill 1700000000000 =
          .ok (rid, s1) ∧
        s1.getCurrentStep = some sampleState.currentStep) :=
  c1_amended_fixed_step_targets sampleSkill sampleState rfl sampleResearch
    sampleOutline (createScriptTemplate sampleOutline) sampleDeck
    1700000000000

/-- C2 counterexample: invoked with no session, getDiscoveryQuestions does
not fail with a SessionNotInitialized condition; it silently returns the
empty list (its return type carries no error channel at all), and
generateScript fails with the PrecedingArtifactMissing message instead of
SessionNotInitialized. -/
theorem c2_uninitialized_counterexample :
    TalkPrepSkill.getDiscoveryQuestions createTalkPrepSkill = [] ∧
    TalkPrepSkill.getTopicSuggestions createTalkPrepSkill = [] ∧
    TalkPrepSkill.generateScript createTalkPrepSkill =
      .error "Outline required before generating script" :=
  ⟨rfl, rfl, rfl⟩

/-- C2 amended: with no session, generateOutline, setOutline, setScript and
getPracticeSuggestions fail with the SessionNotInitialized condition, but
getDiscoveryQuestions and getTopicSuggestions silently return the empty
list and generateScript fails with the PrecedingArtifactMissing condition
(Outline required) instead. -/
theorem c2_amended_uninitialized_behaviour (kc : Option (List String))
    (o : TalkOutline) (sc : Script) :
    TalkPrepSkill.getDiscoveryQuestions createTalkPrepSkill = [] ∧
    TalkPrepSkill.getTopicSuggestions createTalkPrepSkill = [] ∧
    TalkPrepSkill.generateOutline createTalkPrepSkill kc =
      .error "Session not initialized" ∧
    TalkPrepSkill.setOutline createTalkPrepSkill o =
      .error "Session not initialized" ∧
    TalkPrepSkill.setScript createTalkPrepSkill sc =
      .error "Session not initialized" ∧
    TalkPrepSkill.generateScript createTalkPrepSkill =
      .error "Outline required before generating script" ∧
    TalkPrepSkill.getPracticeSuggestions createTalkPrepSkill =
      .error "Session not initialized" :=
  ⟨rfl, rfl, rfl, rfl, rfl, rfl, rfl⟩

set_option maxRecDepth 100000 in
/-- C3: evaluation at the failing input.  Exporting a deck whose title is
a script tag to HTML leaves the raw, un-encoded title in the output
document: exportToHtml interpolates deck.title into the head title element
without passing it through escapeHtml, so the claim that user text appears
only entity-encoded is violated by the code. -/
theorem c3_html_head_title_unescaped :
    isInfixOfB "<script>alert(1)</script>".toList
      (exportToHtml scriptTitleDeck htmlOptions).content.toList = true := by
  rfl

/-- C6: updateSectionTiming returns a session in which every timing record
whose sectionId equals the given id has actualDuration set to the given
value and status completed, every other record is unchanged, all
non-section fields of the session are unchanged, and an unmatched id leaves
the section list equal to the input section list. -/
theorem c6_updateSectionTiming_frame (session : RehearsalSession)
    (sectionId : String) (dur : Int) :
    (updateSectionTiming session sectionId dur).id = session.id ∧
    (updateSectionTiming session sectionId dur).startTime = session.startTime ∧
    (updateSectionTiming session sectionId dur).endTime = session.endTime ∧
    (updateSectionTiming session sectionId dur).feedback = session.feedback ∧
    (updateSectionTiming session sectionId dur).sections.length =
      session.sections.length ∧
    (∀ i (hi : i < session.sections.length)
      (hi2 : i < (updateSectionTiming session sectionId dur).sections.length),
      (updateSectionTiming session sectionId dur).sections[i] =
        (if (session.sections[i]).sectionId = sectionId then
          { session.sections[i] with
            actualDuration := some dur
            status := .completed }
        else session.sections[i])) ∧
    ((∀ sec ∈ session.sections, sec.sectionId ≠ sectionId) →
      (updateSectionTiming session sectionId dur).sections = session.sections) := by
  refine ⟨rfl, rfl, rfl, rfl, by simp [updateSectionTiming], ?_, ?_⟩
  · intro i hi hi2
    simp only [updateSectionTiming, List.getElem_map]
  · intro hnone
    simp only [updateSectionTiming]
    have hfix : ∀ sec ∈ session.sections,
        (if sec.sectionId = sectionId then
          { sec with actualDuration := some dur, status := .completed }
        else sec) = id sec := by
      intro sec hsec
      simp [hnone sec hsec]
    rw [List.map_congr_left hfix, List.map_id]

/-- Witness for c6_updateSectionTiming_frame: the unknown-id clause applied
to a concrete one-section session. -/
theorem c6_updateSectionTiming_frame_witness :
    (updateSectionTiming
      { id := "rehearsal-0"
        startTime := 0
        endTime := none
        sections := [{ sectionId := "section-0", targetDuration := 300,
                       actualDuration := none, status := .not_started }]
        feedback :=
          { overallTiming := { target := 300, actual := 0, variance := 0 }
            sectionFeedback := []
            suggestions := []
            strengthAreas := []
            improvementAreas := [] } } "missing-id" 99).sections =
      [{ sectionId := "section-0", targetDuration := 300,
         actualDuration := none, status := .not_started }] :=
  (c6_updateSectionTiming_frame
    { id := "rehearsal-0"
      startTime := 0
      endTime := none
      sections := [{ sectionId := "section-0", targetDuration := 300,
                     actualDuration := none, status := .not_started }]
      feedback :=
        { overallTiming := { target := 300, actual := 0, variance := 0 }
          sectionFeedback := []
          suggestions := []
          strengthAreas := []
          improvementAreas := [] } } "missing-id" 99).2.2.2.2.2.2
    (by decide)

/-- C8: createQAPreparation builds the anticipated-question list as exactly
the 5 generic questions, then the 2 audience-specific questions, then one
generated question per main-type section with at least one key point, with
ids q-1, q-2, ... assigned sequentially in that order, and its
redirectStrategies list is the fixed 6-entry list independent of the
inputs. -/
theorem c8_createQAPreparation_spec (config : TalkConfig)
    (outline : TalkOutline) :
    (createQAPreparation config outline).anticipatedQuestions =
      assignIds 1 genericQuestions ++
      assignIds 6 (audienceQuestions config.audience) ++
      assignIds 8
        ((outline.sections.filter
          (fun s => s.type = .main ∧ s.keyPoints.length > 0)).map
            sectionQuestion) ∧
    (assignIds 1 genericQuestions).length = 5 ∧
    (assignIds 6 (audienceQuestions config.audience)).length = 2 ∧
    (createQAPreparation config outline).anticipatedQuestions.length =
      7 + (outline.sections.filter
        (fun s => s.type = .main ∧ s.keyPoints.length > 0)).length ∧
    (∀ i (hi : i <
        (createQAPreparation config outline).anticipatedQuestions.length),
      ((createQAPreparation config outline).anticipatedQuestions[i]).id =
        "q-" ++ toString (i + 1)) ∧
    (createQAPreparation config outline).redirectStrategies =
      generateRedirectStrategies ∧
    generateRedirectStrategies.length = 6 := by
  have hsplit :
      (createQAPreparation config outline).anticipatedQuestions =
        assignIds 1 genericQuestions ++
        assignIds 6 (audienceQuestions config.audience) ++
        assignIds 8
          ((outline.sections.filter
            (fun s => s.type = .main ∧ s.keyPoints.length > 0)).map
              sectionQuestion) := by
    show assignIds 1 (genericQuestions ++ audienceQuestions config.audience ++ _) = _
    rw [assignIds_append, assignIds_append]
    norm_num [length_genericQuestions, length_audienceQuestions]
  refine ⟨hsplit, ?_, ?_, ?_, ?_, rfl, rfl⟩
  · simp only [length_assignIds, length_genericQuestions]
  · simp only [length_assignIds, length_audienceQuestions]
  · show (assignIds 1 _).length = _
    rw [length_assignIds]
    simp only [List.length_append, length_genericQuestions,
      length_audienceQuestions, List.length_map]
  · intro i hi
    show (assignIds 1 _)[i].id = _
    rw [getElem_assignIds]
    · simp [QAPairNoId.withId, Nat.add_comm]
    · simpa [createQAPreparation, generateAnticipatedQuestions,
        length_assignIds] using hi

/-- C7: the structured interchange document written by exportSlideDeck with
format json (exportToJson) has a slide list of the same length as the
source deck preserving its ordering: the i-th exported slide carries the
i-th source slide's id and order.  JSON.parse of the serialized string
recovers exactly this document (stringify/parse is modelled as the
platform's inverse pair). -/
theorem c7_exportToJson_preserves_slides (deck : SlideDeck)
    (options : ExportOptions) :
    (exportToJson deck options).content.slides.length = deck.slides.length ∧
    ∀ i (hi : i < deck.slides.length)
      (hi2 : i < (exportToJson deck options).content.slides.length),
      ((exportToJson deck options).content.slides[i]).id =
        (deck.slides[i]).id ∧
      ((exportToJson deck options).content.slides[i]).order =
        (deck.slides[i]).order := by
  refine ⟨by simp [exportToJson], ?_⟩
  intro i hi hi2
  constructor <;> simp [exportToJson]

/-- C9: generateOutline on an initialized session succeeds, stores the
generated outline in the session's outline slot, and leaves currentStep,
completedSteps and every other session field unchanged. -/
theorem c9_generateOutline_frame (skill : TalkPrepSkill) (w : WorkflowState)
    (kc : Option (List String)) (h : skill.state = some w) :
    ∃ outline skill2,
      TalkPrepSkill.generateOutline skill kc = .ok (outline, skill2) ∧
      ∃ w2, skill2.state = some w2 ∧
        w2.currentStep = w.currentStep ∧
        w2.completedSteps = w.completedSteps ∧
        w2.outline = some outline ∧
        w2.config = w.config ∧
        w2.research = w.research ∧
        w2.script = w.script ∧
        w2.slides = w.slides ∧
        w2.qaPrep = w.qaPrep ∧
        w2.rehearsals = w.rehearsals := by
  cases skill with
  | mk st =>
    simp only at h
    subst h
    cases w with
    | mk cs comp cfg res outl scr sl qp rh =>
      cases res with
      | none =>
        cases kc with
        | none => exact ⟨_, _, rfl, _, rfl, rfl, rfl, rfl, rfl, rfl, rfl,
            rfl, rfl, rfl⟩
        | some kcl => exact ⟨_, _, rfl, _, rfl, rfl, rfl, rfl, rfl, rfl,
            rfl, rfl, rfl, rfl⟩
      | some r => exact ⟨_, _, rfl, _, rfl, rfl, rfl, rfl, rfl, rfl, rfl,
          rfl, rfl, rfl⟩

/-- Witness for c9_generateOutline_frame on the fresh sample session. -/
theorem c9_generateOutline_frame_witness :
    ∃ outline skill2,
      TalkPrepSkill.generateOutline sampleSkill
        (some ["GraphQL basics", "Schema design"]) = .ok (outline, skill2) ∧
      ∃ w2, skill2.state = some w2 ∧
        w2.currentStep = sampleState.currentStep ∧
        w2.completedSteps = sampleState.completedSteps ∧
        w2.outline = some outline ∧
        w2.config = sampleState.config ∧
        w2.research = sampleState.research ∧
        w2.script = sampleState.script ∧
        w2.slides = sampleState.slides ∧
        w2.qaPrep = sampleState.qaPrep ∧
        w2.rehearsals = sampleState.rehearsals :=
  c9_generateOutline_frame sampleSkill sampleState
    (some ["GraphQL basics", "Schema design"]) rfl

/-- C10: every successful initialization installs a fresh session: the
validator accepted the input, currentStep is ideation, completedSteps and
rehearsals are empty, and no research, outline, script, slides or Q&A
artifact is present, regardless of any prior session held by the
coordinator. -/
theorem c10_init_fresh_session (skill : TalkPrepSkill) (input : ConfigInput)
    (config : TalkConfig) (h : parseTalkConfig input = .ok config) :
    (TalkPrepSkill.init skill input).1.success = true ∧
    (TalkPrepSkill.init skill input).2.state = some
      { currentStep := .ideation
        completedSteps := []
        config := config
        research := none
        outline := none
        script := none
        slides := none
        qaPrep := none
        rehearsals := [] } := by
  simp [TalkPrepSkill.init, h]

/-- Witness for c10_init_fresh_session: re-initialization of a coordinator
whose prior session already holds artifacts at the terminal step. -/
theorem c10_init_fresh_session_witness :
    parseTalkConfig sampleInput = .ok sampleConfig ∧
    ((TalkPrepSkill.init dirtySkill sampleInput).1.success = true ∧
      (TalkPrepSkill.init dirtySkill sampleInput).2.state = some
        { currentStep := .ideation
          completedSteps := []
          config := sampleConfig
          research := none
          outline := none
          script := none
          slides := none
          qaPrep := none
          rehearsals := [] }) :=
  ⟨rfl, c10_init_fresh_session dirtySkill sampleInput sampleConfig rfl⟩

/-- C5: for each of the five talk types (keynote, technical_deep_dive,
workshop, lightning_talk, panel_discussion), the durationPercent values of
the sections of getTemplate(talkType).structure sum to exactly 100. -/
theorem c5_template_perctotals (t : TalkType) :
    ((getTemplate t).struct.map (fun s => s.durationPercent)).sum = 100 := by
  cases t <;> rfl

/-- C4: for every talk template (the template of each of the five talk
types), every topic and every integer duration D in [5,120],
generateOutlineFromTemplate returns an outline with exactly as many sections
as the template, where the i-th section has duration
round(durationPercent_i/100 * D), id "section-i", order i, and title, type,
notes and key points copied from the i-th template section. -/
theorem c4_generateOutlineFromTemplate_spec (tt : TalkType) (topic : String)
    (D : Nat) (h5 : 5 ≤ D) (h120 : D ≤ 120) :
    (generateOutlineFromTemplate (getTemplate tt) topic D).sections.length =
      (getTemplate tt).struct.length ∧
    ∀ i (hi : i <
        (generateOutlineFromTemplate (getTemplate tt) topic D).sections.length),
      ∃ hi2 : i < (getTemplate tt).struct.length,
        ((generateOutlineFromTemplate (getTemplate tt) topic D).sections[i]).id =
          "section-" ++ toString i ∧
        (((generateOutlineFromTemplate (getTemplate tt) topic D).sections[i]).duration : ℤ) =
          round ((((getTemplate tt).struct[i]).durationPercent : ℚ) / 100 * (D : ℚ)) ∧
        ((generateOutlineFromTemplate (getTemplate tt) topic D).sections[i]).order = i ∧
        ((generateOutlineFromTemplate (getTemplate tt) topic D).sections[i]).title =
          (((getTemplate tt).struct[i])).title ∧
        ((generateOutlineFromTemplate (getTemplate tt) topic D).sections[i]).type =
          (((getTemplate tt).struct[i])).type ∧
        ((generateOutlineFromTemplate (getTemplate tt) topic D).sections[i]).notes =
          some (((getTemplate tt).struct[i])).notes ∧
        ((generateOutlineFromTemplate (getTemplate tt) topic D).sections[i]).keyPoints =
          (((getTemplate tt).struct[i])).keyPointPrompts := by
  constructor
  · simp [generateOutlineFromTemplate, length_mapIdxFrom]
  · intro i hi
    have hi2 : i < (getTemplate tt).struct.length := by
      simpa [generateOutlineFromTemplate, length_mapIdxFrom] using hi
    refine ⟨hi2, ?_⟩
    have hget :
        (generateOutlineFromTemplate (getTemplate tt) topic D).sections[i] =
          { id := "section-" ++ toString i
            title := (((getTemplate tt).struct[i])).title
            duration :=
              (jsRound ((((getTemplate tt).struct[i])).durationPercent * D) 100 : Int)
            order := i
            type := (((getTemplate tt).struct[i])).type
            keyPoints := (((getTemplate tt).struct[i])).keyPointPrompts
            subsections := none
            notes := some (((getTemplate tt).struct[i])).notes } := by
      simp only [generateOutlineFromTemplate]
      rw [getElem_mapIdxFrom]
      · simp
      · exact hi2
    rw [hget]
    refine ⟨rfl, ?_, rfl, rfl, rfl, rfl, rfl⟩
    have hr := jsRound_eq_round ((((getTemplate tt).struct[i])).durationPercent * D) 100
      (by norm_num)
    simp only [hr]
    congr 1
    push_cast
    ring

/-- Witness for c4_generateOutlineFromTemplate_spec at the keynote talk
type, topic "GraphQL" and duration 30. -/
theorem c4_generateOutlineFromTemplate_spec_witness :
    (5 ≤ 30 ∧ 30 ≤ 120) ∧
    ((generateOutlineFromTemplate (getTemplate .keynote) "GraphQL" 30).sections.length =
      (getTemplate .keynote).struct.length ∧
    ∀ i (hi : i <
        (generateOutlineFromTemplate (getTemplate .keynote) "GraphQL" 30).sections.length),
      ∃ hi2 : i < (getTemplate .keynote).struct.length,
        ((generateOutlineFromTemplate (getTemplate .keynote) "GraphQL" 30).sections[i]).id =
          "section-" ++ toString i ∧
        (((generateOutlineFromTemplate (getTemplate .keynote) "GraphQL" 30).sections[i]).duration : ℤ) =
          round ((((getTemplate .keynote).struct[i]).durationPercent : ℚ) / 100 * ((30 : Nat) : ℚ)) ∧
        ((generateOutlineFromTemplate (getTemplate .keynote) "GraphQL" 30).sections[i]).order = i ∧
        ((generateOutlineFromTemplate (getTemplate .keynote) "GraphQL" 30).sections[i]).title =
          (((getTemplate .keynote).struct[i])).title ∧
        ((generateOutlineFromTemplate (getTemplate .keynote) "GraphQL" 30).sections[i]).type =
          (((getTemplate .keynote).struct[i])).type ∧
        ((generateOutlineFromTemplate (getTemplate .keynote) "GraphQL" 30).sections[i]).notes =
          some (((getTemplate .keynote).struct[i])).notes ∧
        ((generateOutlineFromTemplate (getTemplate .keynote) "GraphQL" 30).sections[i]).keyPoints =
          (((getTemplate .keynote).struct[i])).keyPointPrompts) :=
  ⟨⟨by norm_num, by norm_num⟩,
    c4_generateOutlineFromTemplate_spec .keynote "GraphQL" 30
      (by norm_num) (by norm_num)⟩

end ConfTalk
